import Mathlib

/-!
Verification of the UserOperation validation simulator
(crates/rundler/src/common/simulation.rs).

The Rust module is embedded shallowly: machine integers become Nat (the
module only compares them, never does wrapping arithmetic, except for the
single usize-to-u32 cast which is modelled explicitly with % 2^32),
addresses and hashes become Nat, hash sets of addresses become Finset Nat,
and the collaborators (tracer, provider, mempool matcher) become explicit
inputs.  Functions that can panic in Rust (integer underflow on
phases.len() - 1, Option::unwrap, out-of-range Vec indexing) return
Option, with none standing for the panic.
-/

/-- Ethereum address (H160), abstracted to a natural number: the module
only compares addresses for equality and order. -/
abbrev Address := Nat

/-- 256-bit unsigned integer, abstracted to a natural number: the module
only compares these values. -/
abbrev U256 := Nat

/-- 32-byte hash (H256), abstracted to a natural number. -/
abbrev H256 := Nat

/-- Modelled from the spec: EntityType from rundler_types (not under src).
The spec lists the four roles as Factory, Account, Paymaster, Aggregator;
the derived order follows that listing. -/
inductive EntityType where
  | factory
  | account
  | paymaster
  | aggregator
deriving DecidableEq

/-- Numeric tag of an entity type in declaration order, used for the
derived lexicographic order of rundler_types::EntityType. -/
def EntityType.tag : EntityType → Nat
  | .factory => 0
  | .account => 1
  | .paymaster => 2
  | .aggregator => 3

/-- Modelled from the spec: Entity from rundler_types (not under src), a
tagged variant plus an address. -/
structure Entity where
  kind : EntityType
  address : Address
deriving DecidableEq

/-- Entity::aggregator constructor. -/
def Entity.aggregator (address : Address) : Entity :=
  { kind := .aggregator, address := address }

/-- Modelled from the spec: StakeInfo from common::types (not under src);
the two fields the simulator reads. -/
structure StakeInfo where
  stake : U256
  unstake_delay_sec : U256
deriving DecidableEq

/-- Modelled from the spec: ValidationReturnInfo from common::types (not
under src): return_info of the decoded ValidationOutput.  The
paymaster_context bytes are abstracted to a list of naturals; the
simulator only asks whether it is empty. -/
structure ValidationReturnInfo where
  pre_op_gas : U256
  valid_after : U256
  valid_until : U256
  sig_failed : Bool
  paymaster_context : List Nat
deriving DecidableEq

/-- Modelled from the spec: aggregator_info of the decoded
ValidationOutput. -/
structure AggregatorInfo where
  address : Address
  stake_info : StakeInfo
deriving DecidableEq

/-- Modelled from the spec: ValidationOutput from common::types (not under
src), decoded from the entry-point revert payload. -/
structure ValidationOutput where
  return_info : ValidationReturnInfo
  sender_info : StakeInfo
  factory_info : StakeInfo
  paymaster_info : StakeInfo
  aggregator_info : Option AggregatorInfo
deriving DecidableEq

/-- Modelled from the spec: FailedOp(uint256, string) revert structure of
the entry point; the simulator reads only the reason string. -/
structure FailedOp where
  op_index : U256
  reason : String
deriving DecidableEq

/-- The revert payload of the traced simulateValidation call, represented
by the outcome of the two decoders applied to it.  FailedOp and
ValidationResult have distinct 4-byte selectors, and create_context tries
FailedOp first, so every hex blob behaves as exactly one of these three
cases. -/
inductive RevertData where
  | failedOp (op : FailedOp)
  | validationOutput (out : ValidationOutput)
  | other
deriving DecidableEq

/-- FailedOp::decode_hex on the revert payload. -/
def RevertData.decodeFailedOp : RevertData → Option FailedOp
  | .failedOp op => some op
  | _ => none

/-- ValidationOutput::decode_hex on the revert payload. -/
def RevertData.decodeValidationOutput : RevertData → Option ValidationOutput
  | .validationOutput out => some out
  | _ => none

/-- One entry of a phase's storage_accesses (tracer output). -/
structure StorageAccess where
  address : Address
  slots : List U256
deriving DecidableEq

/-- One phase of the tracer output.  The forbidden opcode / precompile
strings of the form "<contract>:<value>" are modelled from the spec as
their parsed pairs (parse_combined_tracer_str lives in the tracer module,
which is not under src); an opcode is abstracted to its numeric value. -/
structure Phase where
  forbidden_opcodes_used : List (Address × Nat)
  forbidden_precompiles_used : List (Address × Address)
  storage_accesses : List StorageAccess
  addresses_calling_with_value : List Address
  called_non_entry_point_with_value : Bool
  called_banned_entry_point_method : Bool
  ran_out_of_gas : Bool
  undeployed_contract_accesses : List Address
deriving DecidableEq

/-- Modelled from the spec: the expected_storage mapping of the tracer
output (address -> slot -> value), forwarded verbatim; represented as an
association list. -/
abbrev ExpectedStorage := List (Address × List (U256 × U256))

/-- Modelled from the spec: AssociatedSlotsByAddress from the tracer
module (not under src), as its is_associated_slot oracle. -/
abbrev AssociatedSlotsByAddress := Address → U256 → Bool

/-- SimulationTracerOutput: the structured result of the tracer
collaborator. -/
structure SimulationTracerOutput where
  phases : List Phase
  revert_data : Option RevertData
  accessed_contract_addresses : List Address
  associated_slots_by_address : AssociatedSlotsByAddress
  factory_called_create2_twice : Bool
  expected_storage : ExpectedStorage

/-- Simulation settings (stake and gas thresholds). -/
structure Settings where
  min_unstake_delay : Nat
  min_stake_value : Nat
  max_simulate_handle_ops_gas : Nat
  max_verification_gas : Nat
deriving DecidableEq

/-- Settings::default. -/
def Settings.default : Settings :=
  { min_unstake_delay := 84600
    min_stake_value := 1000000000000000000
    max_simulate_handle_ops_gas := 550000000
    max_verification_gas := 5000000 }

/-- StorageSlot: an (address, slot) pair, totally ordered. -/
structure StorageSlot where
  address : Address
  slot : U256
deriving DecidableEq

/-- SimulationViolation, with the variants in the declaration order of the
Rust enum; that order is the serialization contract. -/
inductive SimulationViolation where
  | invalidSignature
  | unintendedRevertWithMessage (et : EntityType) (msg : String)
      (addr : Option Address)
  | usedForbiddenOpcode (e : Entity) (contract : Address) (opcode : Nat)
  | usedForbiddenPrecompile (e : Entity) (contract : Address)
      (precompile : Address)
  | accessedUndeployedContract (e : Entity) (addr : Address)
  | factoryCalledCreate2Twice (addr : Address)
  | invalidStorageAccess (e : Entity) (slot : StorageSlot)
  | calledBannedEntryPointMethod (e : Entity)
  | callHadValue (e : Entity)
  | codeHashChanged
  | notStaked (e : Entity) (minStake : U256) (minDelay : U256)
  | unintendedRevert (et : EntityType)
  | didNotRevert
  | wrongNumberOfPhases (n : Nat)
  | outOfGas (e : Entity)
  | aggregatorValidationFailed
deriving DecidableEq

namespace SimulationViolation

/-- Discriminant of a violation in the declaration order of the enum. -/
def tag : SimulationViolation → Nat
  | .invalidSignature => 0
  | .unintendedRevertWithMessage _ _ _ => 1
  | .usedForbiddenOpcode _ _ _ => 2
  | .usedForbiddenPrecompile _ _ _ => 3
  | .accessedUndeployedContract _ _ => 4
  | .factoryCalledCreate2Twice _ => 5
  | .invalidStorageAccess _ _ => 6
  | .calledBannedEntryPointMethod _ => 7
  | .callHadValue _ => 8
  | .codeHashChanged => 9
  | .notStaked _ _ _ => 10
  | .unintendedRevert _ => 11
  | .didNotRevert => 12
  | .wrongNumberOfPhases _ => 13
  | .outOfGas _ => 14
  | .aggregatorValidationFailed => 15

end SimulationViolation

/-- Derived lexicographic order on EntityType (declaration order of the
variants). -/
def etLE (a b : EntityType) : Bool := a.tag ≤ b.tag

/-- Derived lexicographic order on Entity: kind, then address. -/
def entityLE (a b : Entity) : Bool :=
  if a.kind = b.kind then a.address ≤ b.address else etLE a.kind b.kind

/-- Derived order on Option Address: None sorts first. -/
def optAddrLE : Option Address → Option Address → Bool
  | none, _ => true
  | some _, none => false
  | some a, some b => a ≤ b

/-- Derived order on StorageSlot: address, then slot. -/
def slotLE (a b : StorageSlot) : Bool :=
  if a.address = b.address then a.slot ≤ b.slot else a.address ≤ b.address

/-- The derived total order of the SimulationViolation enum: variant
discriminant first, then the fields lexicographically (the custom Ord of
ViolationOpCode compares the opcode's numeric value, which the embedding
already uses). -/
def svLE (a b : SimulationViolation) : Bool :=
  if a.tag < b.tag then true
  else if b.tag < a.tag then false
  else match a, b with
    | .unintendedRevertWithMessage et1 m1 a1,
      .unintendedRevertWithMessage et2 m2 a2 =>
        if et1 = et2 then
          if m1 = m2 then optAddrLE a1 a2 else decide (m1 < m2)
        else etLE et1 et2
    | .usedForbiddenOpcode e1 c1 o1, .usedForbiddenOpcode e2 c2 o2 =>
        if e1 = e2 then (if c1 = c2 then o1 ≤ o2 else c1 ≤ c2)
        else entityLE e1 e2
    | .usedForbiddenPrecompile e1 c1 p1, .usedForbiddenPrecompile e2 c2 p2 =>
        if e1 = e2 then (if c1 = c2 then p1 ≤ p2 else c1 ≤ c2)
        else entityLE e1 e2
    | .accessedUndeployedContract e1 a1, .accessedUndeployedContract e2 a2 =>
        if e1 = e2 then a1 ≤ a2 else entityLE e1 e2
    | .factoryCalledCreate2Twice a1, .factoryCalledCreate2Twice a2 => a1 ≤ a2
    | .invalidStorageAccess e1 s1, .invalidStorageAccess e2 s2 =>
        if e1 = e2 then slotLE s1 s2 else entityLE e1 e2
    | .calledBannedEntryPointMethod e1, .calledBannedEntryPointMethod e2 =>
        entityLE e1 e2
    | .callHadValue e1, .callHadValue e2 => entityLE e1 e2
    | .notStaked e1 s1 d1, .notStaked e2 s2 d2 =>
        if e1 = e2 then (if s1 = s2 then d1 ≤ d2 else s1 ≤ s2)
        else entityLE e1 e2
    | .unintendedRevert et1, .unintendedRevert et2 => etLE et1 et2
    | .wrongNumberOfPhases n1, .wrongNumberOfPhases n2 => n1 ≤ n2
    | .outOfGas e1, .outOfGas e2 => entityLE e1 e2
    | _, _ => true

/-- entity_type_from_simulation_phase: 0 is Factory, 1 is Account, 2 is
Paymaster; anything else is None. -/
def entity_type_from_simulation_phase : Nat → Option EntityType
  | 0 => some .factory
  | 1 => some .account
  | 2 => some .paymaster
  | _ => none

/-- EntityInfo: an entity address plus its staked flag. -/
structure EntityInfo where
  address : Address
  is_staked : Bool
deriving DecidableEq

/-- EntityInfos: the three positional entity roles (the aggregator is
handled separately). -/
structure EntityInfos where
  factory : Option EntityInfo
  sender : EntityInfo
  paymaster : Option EntityInfo
deriving DecidableEq

/-- is_staked: the stake predicate. -/
def is_staked (info : StakeInfo) (sim_settings : Settings) : Bool :=
  sim_settings.min_stake_value ≤ info.stake &&
    sim_settings.min_unstake_delay ≤ info.unstake_delay_sec

/-- EntityInfos::new. -/
def EntityInfos.new (factory_address : Option Address)
    (sender_address : Address) (paymaster_address : Option Address)
    (entry_point_out : ValidationOutput) (sim_settings : Settings) :
    EntityInfos :=
  { factory := factory_address.map fun address =>
      { address := address
        is_staked := is_staked entry_point_out.factory_info sim_settings }
    sender :=
      { address := sender_address
        is_staked := is_staked entry_point_out.sender_info sim_settings }
    paymaster := paymaster_address.map fun address =>
      { address := address
        is_staked := is_staked entry_point_out.paymaster_info sim_settings } }

/-- EntityInfos::get. -/
def EntityInfos.get (self : EntityInfos) : EntityType → Option EntityInfo
  | .factory => self.factory
  | .account => some self.sender
  | .paymaster => self.paymaster
  | _ => none

/-- EntityInfos::sender_address. -/
def EntityInfos.sender_address (self : EntityInfos) : Address :=
  self.sender.address

/-- StorageRestriction: the three-way classification. -/
inductive StorageRestriction where
  | allowed
  | needsStake
  | banned
deriving DecidableEq

/-- GetStorageRestrictionArgs. -/
structure GetStorageRestrictionArgs where
  slots_by_address : AssociatedSlotsByAddress
  is_unstaked_wallet_creation : Bool
  entry_point_address : Address
  entity_address : Address
  sender_address : Address
  accessed_address : Address
  slot : U256

/-- get_storage_restriction: the pure storage classifier, translated
clause for clause from the source. -/
def get_storage_restriction (args : GetStorageRestrictionArgs) :
    StorageRestriction :=
  if args.accessed_address = args.sender_address then
    .allowed
  else if args.slots_by_address args.sender_address args.slot then
    if args.accessed_address = args.entry_point_address ||
        !args.is_unstaked_wallet_creation then
      .allowed
    else
      .needsStake
  else if args.accessed_address = args.entity_address ||
      args.slots_by_address args.entity_address args.slot then
    .needsStake
  else
    .banned

/-- The parts of the UserOperation the simulator reads.  Modelled from the
spec: op.factory() and op.paymaster() (rundler_types, not under src)
derive the optional addresses from init_code and paymaster_and_data,
treating empty byte strings as absent; the embedding carries the derived
values directly. -/
structure UserOperation where
  sender : Address
  factory : Option Address
  paymaster : Option Address
deriving DecidableEq

/-- ValidationContext: the state threaded from create_context through
gather_context_violations into the success record.  BlockId is abstracted
to the block hash it is built from. -/
structure ValidationContext where
  block_id : H256
  entity_infos : EntityInfos
  tracer_out : SimulationTracerOutput
  entry_point_out : ValidationOutput
  is_unstaked_wallet_creation : Bool
  entities_needing_stake : List EntityType
  accessed_addresses : Finset Address

/-- create_context: validates the phase count, decodes the revert data and
assembles the context.  The tracer output is an input (the tracer is a
collaborator).  The outer Option models the two panics reachable in the
source: phases.len() - 1 underflows when phases is empty, and the unwrap
of entity_type_from_simulation_phase fails when the surviving length is
out of range.  num_phases is phases.len() as u32, hence the explicit
truncation. -/
def create_context (sim_settings : Settings) (op : UserOperation)
    (block_id : H256) (tracer_out : SimulationTracerOutput) :
    Option (Except (List SimulationViolation) ValidationContext) :=
  let factory_address := op.factory
  let sender_address := op.sender
  let paymaster_address := op.paymaster
  let num_phases := tracer_out.phases.length % 2 ^ 32
  if num_phases > 3 then
    some (.error [.wrongNumberOfPhases num_phases])
  else match tracer_out.revert_data with
    | none => some (.error [.didNotRevert])
    | some revert_data =>
      if tracer_out.phases.length = 0 then
        none
      else match entity_type_from_simulation_phase
          (tracer_out.phases.length - 1) with
        | none => none
        | some last_entity =>
          match revert_data.decodeFailedOp with
          | some failed_op =>
            let entity_addr : Option Address :=
              match last_entity with
              | .factory => factory_address
              | .paymaster => paymaster_address
              | .account => some sender_address
              | _ => none
            some (.error [.unintendedRevertWithMessage last_entity
              failed_op.reason entity_addr])
          | none =>
            match revert_data.decodeValidationOutput with
            | none => some (.error [.unintendedRevert last_entity])
            | some entry_point_out =>
              let entity_infos := EntityInfos.new factory_address
                sender_address paymaster_address entry_point_out
                sim_settings
              let is_unstaked_wallet_creation :=
                (Option.filter (fun factory => !factory.is_staked)
                  (entity_infos.get .factory)).isSome
              if num_phases < 3 then
                some (.error [.wrongNumberOfPhases num_phases])
              else
                some (.ok
                  { block_id := block_id
                    entity_infos := entity_infos
                    tracer_out := tracer_out
                    entry_point_out := entry_point_out
                    is_unstaked_wallet_creation := is_unstaked_wallet_creation
                    entities_needing_stake := []
                    accessed_addresses := ∅ })

/-- IndexSet::insert on the per-phase banned-slot set: keeps insertion
order, drops duplicates. -/
def indexInsert (l : List StorageSlot) (x : StorageSlot) :
    List StorageSlot :=
  if x ∈ l then l else l ++ [x]

/-- The body of the innermost loop of gather_context_violations: classify
one slot of one storage access, updating the needs_stake flag and the
ordered banned-slot set. -/
def slotStep (slots_by_address : AssociatedSlotsByAddress)
    (is_unstaked_wallet_creation : Bool) (entry_point_address : Address)
    (entity_address : Address) (sender_address : Address)
    (accessed_address : Address) (st2 : Bool × List StorageSlot)
    (slot : U256) : Bool × List StorageSlot :=
  match get_storage_restriction
      { slots_by_address := slots_by_address
        is_unstaked_wallet_creation := is_unstaked_wallet_creation
        entry_point_address := entry_point_address
        entity_address := entity_address
        sender_address := sender_address
        accessed_address := accessed_address
        slot := slot } with
  | .allowed => st2
  | .needsStake => (true, st2.2)
  | .banned =>
      (st2.1, indexInsert st2.2 { address := accessed_address, slot := slot })

/-- The body of the per-storage-access loop of gather_context_violations:
inserts the accessed address, then classifies each slot. -/
def accessStep (slots_by_address : AssociatedSlotsByAddress)
    (is_unstaked_wallet_creation : Bool) (entry_point_address : Address)
    (entity_address : Address) (sender_address : Address)
    (st : Bool × List StorageSlot × Finset Address) (sa : StorageAccess) :
    Bool × List StorageSlot × Finset Address :=
  let accessed := insert sa.address st.2.2
  let inner := sa.slots.foldl
    (slotStep slots_by_address is_unstaked_wallet_creation
      entry_point_address entity_address sender_address sa.address)
    (st.1, st.2.1)
  (inner.1, inner.2, accessed)

/-- The body of the per-phase loop of gather_context_violations for one
(index, phase) pair: the violations pushed during that phase (in push
order), the entities_needing_stake entries appended during it, and the
updated accessed_addresses set. -/
def phaseOut (sim_settings : Settings) (entry_point_address : Address)
    (entity_infos : EntityInfos) (is_unstaked_wallet_creation : Bool)
    (slots_by_address : AssociatedSlotsByAddress)
    (paymaster_context : List Nat) (sender_address : Address)
    (accessed_addresses : Finset Address) (ip : Nat × Phase) :
    List SimulationViolation × List EntityType × Finset Address :=
  let (index, phase) := ip
  match entity_type_from_simulation_phase index with
  | none => ([], [], accessed_addresses)
  | some kind =>
    match entity_infos.get kind with
    | none => ([], [], accessed_addresses)
    | some entity_info =>
      let entity : Entity := { kind := kind, address := entity_info.address }
      let violations : List SimulationViolation :=
        phase.forbidden_opcodes_used.map (fun co =>
          .usedForbiddenOpcode entity co.1 co.2)
      let violations := violations ++
        phase.forbidden_precompiles_used.map (fun cp =>
          .usedForbiddenPrecompile entity cp.1 cp.2)
      let needs_stake := decide (entity.kind = EntityType.paymaster) &&
        !paymaster_context.isEmpty
      let scan := phase.storage_accesses.foldl
        (accessStep slots_by_address is_unstaked_wallet_creation
          entry_point_address entity_info.address sender_address)
        (needs_stake, [], accessed_addresses)
      let needs_stake := scan.1
      let banned_slots_accessed := scan.2.1
      let accessed_addresses := scan.2.2
      let entities_needing_stake : List EntityType :=
        if needs_stake then [entity.kind] else []
      let violations := violations ++
        (if needs_stake && !entity_info.is_staked then
          [.notStaked entity sim_settings.min_stake_value
            sim_settings.min_unstake_delay]
        else [])
      let violations := violations ++
        banned_slots_accessed.map (fun slot =>
          .invalidStorageAccess entity slot)
      let non_sender_called_with_value :=
        phase.addresses_calling_with_value.any
          (fun address => address ≠ sender_address)
      let violations := violations ++
        (if non_sender_called_with_value ||
            phase.called_non_entry_point_with_value then
          [.callHadValue entity]
        else [])
      let violations := violations ++
        (if phase.called_banned_entry_point_method then
          [.calledBannedEntryPointMethod entity]
        else [])
      let violations := violations ++
        (if phase.ran_out_of_gas then [.outOfGas entity] else [])
      let violations := violations ++
        phase.undeployed_contract_accesses.map (fun address =>
          .accessedUndeployedContract entity address)
      (violations, entities_needing_stake, accessed_addresses)

/-- One step of the per-phase loop: appends the phase's violations and
entities_needing_stake entries to the accumulator and threads the
accessed_addresses set. -/
def phaseStep (sim_settings : Settings) (entry_point_address : Address)
    (entity_infos : EntityInfos) (is_unstaked_wallet_creation : Bool)
    (slots_by_address : AssociatedSlotsByAddress)
    (paymaster_context : List Nat) (sender_address : Address)
    (acc : List SimulationViolation × List EntityType × Finset Address)
    (ip : Nat × Phase) :
    List SimulationViolation × List EntityType × Finset Address :=
  let out := phaseOut sim_settings entry_point_address entity_infos
    is_unstaked_wallet_creation slots_by_address paymaster_context
    sender_address acc.2.2 ip
  (acc.1 ++ out.1, acc.2.1 ++ out.2.1, out.2.2)

/-- gather_context_violations: walks the phases and returns the violation
vector together with the updated entities_needing_stake and
accessed_addresses fields of the context.  The parse of the forbidden
opcode / precompile strings cannot fail in the embedding (the strings are
carried pre-parsed), so the anyhow error path vanishes. -/
def gather_context_violations (sim_settings : Settings)
    (entry_point_address : Address) (context : ValidationContext) :
    List SimulationViolation × List EntityType × Finset Address :=
  let violations : List SimulationViolation :=
    if context.entry_point_out.return_info.sig_failed then
      [.invalidSignature]
    else []
  let sender_address := context.entity_infos.sender_address
  let (violations, entities_needing_stake, accessed_addresses) :=
    ((context.tracer_out.phases.take 3).enum).foldl
      (phaseStep sim_settings entry_point_address context.entity_infos
        context.is_unstaked_wallet_creation
        context.tracer_out.associated_slots_by_address
        context.entry_point_out.return_info.paymaster_context
        sender_address)
      (violations, context.entities_needing_stake,
        context.accessed_addresses)
  let (violations, entities_needing_stake) :=
    match context.entry_point_out.aggregator_info with
    | some aggregator_info =>
      (violations ++
        (if !(is_staked aggregator_info.stake_info sim_settings) then
          [SimulationViolation.notStaked
            (Entity.aggregator aggregator_info.address)
            sim_settings.min_stake_value sim_settings.min_unstake_delay]
        else []),
      entities_needing_stake ++ [EntityType.aggregator])
    | none => (violations, entities_needing_stake)
  let violations :=
    if context.tracer_out.factory_called_create2_twice then
      violations ++
        [SimulationViolation.factoryCalledCreate2Twice
          (match context.entity_infos.get .factory with
          | some factory => factory.address
          | none => entry_point_address)]
    else violations
  (violations, entities_needing_stake, accessed_addresses)

/-- AggregatorSimOut (rundler_provider, not under src): modelled from the
spec as the address plus signature returned on success. -/
structure AggregatorSimOut where
  address : Address
  signature : List Nat
deriving DecidableEq

/-- AggregatorOut (rundler_provider, not under src): modelled from the
spec as the three-way aggregator signature validation result. -/
inductive AggregatorOut where
  | notNeeded
  | successWithInfo (info : AggregatorSimOut)
  | validationReverted
deriving DecidableEq

/-- validate_aggregator_signature: yields NotNeeded when no aggregator
address is present, otherwise the provider's answer (an oracle input). -/
def validate_aggregator_signature (aggregator_address : Option Address)
    (provider_out : AggregatorOut) : AggregatorOut :=
  match aggregator_address with
  | none => .notNeeded
  | some _ => provider_out

/-- check_contracts: given the joined results of the code-hash computation
and the aggregator signature validation (both oracle inputs from the
provider), pushes CodeHashChanged and/or AggregatorValidationFailed and
fails when any violation was collected.  The drain of
accessed_contract_addresses out of the context has no observable effect
in the embedding (the context is not reused afterwards). -/
def check_contracts (expected_code_hash : Option H256) (code_hash : H256)
    (aggregator_out : AggregatorOut) :
    Except (List SimulationViolation) (H256 × Option AggregatorSimOut) :=
  let violations : List SimulationViolation :=
    match expected_code_hash with
    | some expected => if expected ≠ code_hash then [.codeHashChanged] else []
    | none => []
  let (aggregator, violations) :=
    match aggregator_out with
    | .notNeeded => (none, violations)
    | .successWithInfo info => (some info, violations)
    | .validationReverted =>
        (none, violations ++ [SimulationViolation.aggregatorValidationFailed])
  if violations.isEmpty then .ok (code_hash, aggregator)
  else .error violations

/-- MempoolMatchResult of the external mempool matcher. -/
inductive MempoolMatchResult where
  | matches (pools : List H256)
  | noMatch (i : Nat)

/-- The collaborator answers consumed by one simulate_validation call:
match_mempools (external module), the provider's code hash for the
accessed contracts, and the provider's aggregator signature validation
result. -/
structure SimOracles where
  match_mempools : List SimulationViolation → MempoolMatchResult
  code_hash : H256
  aggregator_out : AggregatorOut

/-- SimulationSuccess: the public success record.  ValidTimeRange is
abstracted to the (valid_after, valid_until) pair it is built from. -/
structure SimulationSuccess where
  mempools : List H256
  block_hash : H256
  pre_op_gas : U256
  valid_time_range : U256 × U256
  aggregator : Option AggregatorSimOut
  code_hash : H256
  entities_needing_stake : List EntityType
  account_is_staked : Bool
  accessed_addresses : Finset Address
  expected_storage : ExpectedStorage
deriving DecidableEq

/-- simulate_validation: the public pipeline, with the resolved block hash
and the collaborator answers as inputs.  The outer Option models the
panics of create_context and the violations[i] indexing on a NoMatch
answer; transport errors of the collaborators abort with
ViolationError::Other and carry no violation vector, so they are outside
this embedding. -/
def simulate_validation (sim_settings : Settings)
    (entry_point_address : Address) (op : UserOperation)
    (block_hash : H256) (tracer_out : SimulationTracerOutput)
    (oracles : SimOracles) (expected_code_hash : Option H256) :
    Option (Except (List SimulationViolation) SimulationSuccess) :=
  let block_id := block_hash
  match create_context sim_settings op block_id tracer_out with
  | none => none
  | some (.error violations) => some (.error violations)
  | some (.ok context) =>
    let gathered :=
      gather_context_violations sim_settings entry_point_address context
    let entities_needing_stake := gathered.2.1
    let accessed_addresses := gathered.2.2
    let violations := gathered.1.mergeSort svLE
    match oracles.match_mempools violations with
    | .noMatch i =>
      match violations.get? i with
      | none => none
      | some v => some (.error [v])
    | .matches pools =>
      match check_contracts expected_code_hash oracles.code_hash
          (validate_aggregator_signature
            (context.entry_point_out.aggregator_info.map
              (fun info => info.address))
            oracles.aggregator_out) with
      | .error violations => some (.error violations)
      | .ok (code_hash, aggregator) =>
        some (.ok
          { mempools := pools
            block_hash := block_hash
            pre_op_gas := context.entry_point_out.return_info.pre_op_gas
            valid_time_range :=
              (context.entry_point_out.return_info.valid_after,
                context.entry_point_out.return_info.valid_until)
            aggregator := aggregator
            code_hash := code_hash
            entities_needing_stake := entities_needing_stake
            account_is_staked :=
              is_staked context.entry_point_out.sender_info sim_settings
            accessed_addresses := accessed_addresses
            expected_storage := context.tracer_out.expected_storage })

section ClassifierTheorems

/-- C1: the storage restriction classifier, evaluating the four rules in
order with first match winning, returns Allowed exactly when the accessed
address is the sender, or the slot is an associated slot of the sender
and (the accessed address is the entry point or the operation is not an
unstaked wallet creation); NeedsStake exactly when no earlier rule fired
and either (associated slot of the sender, accessed address not the entry
point, unstaked wallet creation) or (not an associated slot of the sender
and the accessed address is the entity or the slot is an associated slot
of the entity); Banned exactly in the remaining case.  This holds for
every combination of inputs. -/
theorem storage_restriction_rules (args : GetStorageRestrictionArgs) :
    (get_storage_restriction args = .allowed ↔
      args.accessed_address = args.sender_address ∨
        (args.accessed_address ≠ args.sender_address ∧
          args.slots_by_address args.sender_address args.slot = true ∧
          (args.accessed_address = args.entry_point_address ∨
            args.is_unstaked_wallet_creation = false))) ∧
    (get_storage_restriction args = .needsStake ↔
      args.accessed_address ≠ args.sender_address ∧
        ((args.slots_by_address args.sender_address args.slot = true ∧
            args.accessed_address ≠ args.entry_point_address ∧
            args.is_unstaked_wallet_creation = true) ∨
          (args.slots_by_address args.sender_address args.slot = false ∧
            (args.accessed_address = args.entity_address ∨
              args.slots_by_address args.entity_address args.slot = true)))) ∧
    (get_storage_restriction args = .banned ↔
      args.accessed_address ≠ args.sender_address ∧
        args.slots_by_address args.sender_address args.slot = false ∧
        args.accessed_address ≠ args.entity_address ∧
        args.slots_by_address args.entity_address args.slot = false) := by
  unfold get_storage_restriction
  split_ifs with h1 h2 h3 h4 <;>
    simp_all [Bool.or_eq_true, Bool.not_eq_true'] <;> tauto

/-- C6: for fixed classifier inputs, flipping is_unstaked_wallet_creation
from false to true either leaves the classification unchanged or moves it
from Allowed to NeedsStake; it never moves any input to Banned, and every
input is classified as exactly one of the three outcomes. -/
theorem storage_restriction_flag_monotone
    (slots_by_address : AssociatedSlotsByAddress)
    (entry_point_address entity_address sender_address
      accessed_address : Address) (slot : U256) :
    let r0 := get_storage_restriction
      { slots_by_address := slots_by_address
        is_unstaked_wallet_creation := false
        entry_point_address := entry_point_address
        entity_address := entity_address
        sender_address := sender_address
        accessed_address := accessed_address
        slot := slot }
    let r1 := get_storage_restriction
      { slots_by_address := slots_by_address
        is_unstaked_wallet_creation := true
        entry_point_address := entry_point_address
        entity_address := entity_address
        sender_address := sender_address
        accessed_address := accessed_address
        slot := slot }
    (r1 = r0 ∨ (r0 = .allowed ∧ r1 = .needsStake)) ∧
      (r1 = .banned → r0 = .banned) ∧
      ((r0 = .allowed ∧ r0 ≠ .needsStake ∧ r0 ≠ .banned) ∨
        (r0 ≠ .allowed ∧ r0 = .needsStake ∧ r0 ≠ .banned) ∨
        (r0 ≠ .allowed ∧ r0 ≠ .needsStake ∧ r0 = .banned)) := by
  unfold get_storage_restriction
  split_ifs <;> simp_all

end ClassifierTheorems

section ContextTheorems

/-- C2: create_context fails with exactly one violation under this
precedence: more than 3 phases gives WrongNumberOfPhases immediately;
otherwise a missing revert gives DidNotRevert; otherwise a revert that
decodes as FailedOp gives UnintendedRevertWithMessage for the last
entity, carrying the sender address for Account, the factory address for
Factory and the paymaster address for Paymaster; otherwise a revert that
is not a ValidationOutput gives UnintendedRevert; and only after all of
these, fewer than 3 phases gives WrongNumberOfPhases.  In particular a
FailedOp revert with 2 phases yields UnintendedRevertWithMessage, never
WrongNumberOfPhases. -/
theorem create_context_error_precedence (sim_settings : Settings)
    (op : UserOperation) (block_id : H256)
    (tracer_out : SimulationTracerOutput) :
    (tracer_out.phases.length % 2 ^ 32 > 3 →
      create_context sim_settings op block_id tracer_out =
        some (.error [.wrongNumberOfPhases
          (tracer_out.phases.length % 2 ^ 32)])) ∧
    (tracer_out.phases.length % 2 ^ 32 ≤ 3 →
      tracer_out.revert_data = none →
      create_context sim_settings op block_id tracer_out =
        some (.error [.didNotRevert])) ∧
    (∀ failed_op last_entity, tracer_out.phases.length % 2 ^ 32 ≤ 3 →
      tracer_out.phases.length ≠ 0 →
      entity_type_from_simulation_phase (tracer_out.phases.length - 1) =
        some last_entity →
      tracer_out.revert_data = some (.failedOp failed_op) →
      create_context sim_settings op block_id tracer_out =
        some (.error [.unintendedRevertWithMessage last_entity
          failed_op.reason
          (match last_entity with
            | .factory => op.factory
            | .paymaster => op.paymaster
            | .account => some op.sender
            | _ => none)])) ∧
    (∀ last_entity, tracer_out.phases.length % 2 ^ 32 ≤ 3 →
      tracer_out.phases.length ≠ 0 →
      entity_type_from_simulation_phase (tracer_out.phases.length - 1) =
        some last_entity →
      tracer_out.revert_data = some .other →
      create_context sim_settings op block_id tracer_out =
        some (.error [.unintendedRevert last_entity])) ∧
    (∀ entry_point_out, tracer_out.phases.length ≠ 0 →
      tracer_out.phases.length < 3 →
      tracer_out.revert_data = some (.validationOutput entry_point_out) →
      create_context sim_settings op block_id tracer_out =
        some (.error [.wrongNumberOfPhases tracer_out.phases.length])) := by
  refine ⟨?_, ?_, ?_, ?_, ?_⟩
  · intro hgt
    simp only [create_context]
    rw [if_pos hgt]
  · intro hle hrev
    simp only [create_context, hrev]
    rw [if_neg (Nat.not_lt.mpr hle)]
  · intro failed_op last_entity hle hne hlast hrev
    simp only [create_context, hrev, hne, hlast, if_false,
      RevertData.decodeFailedOp]
    rw [if_neg (Nat.not_lt.mpr hle)]
  · intro last_entity hle hne hlast hrev
    simp only [create_context, hrev, hne, hlast, if_false,
      RevertData.decodeFailedOp, RevertData.decodeValidationOutput]
    rw [if_neg (Nat.not_lt.mpr hle)]
  · intro entry_point_out hne hlt hrev
    have hmod : tracer_out.phases.length % 2 ^ 32 =
        tracer_out.phases.length :=
      Nat.mod_eq_of_lt (by omega)
    have h1 : tracer_out.phases.length - 1 = 0 ∨
        tracer_out.phases.length - 1 = 1 := by omega
    have hlast : (entity_type_from_simulation_phase
        (tracer_out.phases.length - 1)).isSome := by
      rcases h1 with h | h <;>
        simp [h, entity_type_from_simulation_phase]
    obtain ⟨last_entity, hlast⟩ := Option.isSome_iff_exists.mp hlast
    simp only [create_context, hmod, hrev, hne, hlast, if_false,
      RevertData.decodeFailedOp, RevertData.decodeValidationOutput]
    rw [if_neg (by omega : ¬ tracer_out.phases.length > 3),
      if_pos hlt]

/-- C9: for every tracer output with a non-empty phases sequence of at
most 3 phases (the range the data model guarantees), the last-entity
computation of create_context returns Some, so its unwrap cannot fail and
create_context does not panic; when phases is empty and revert data is
present, the phases.len() - 1 computation is partial and create_context
panics, so non-emptiness of phases is a required precondition. -/
theorem create_context_last_entity_total (sim_settings : Settings)
    (op : UserOperation) (block_id : H256)
    (tracer_out : SimulationTracerOutput) :
    (1 ≤ tracer_out.phases.length → tracer_out.phases.length ≤ 3 →
      (entity_type_from_simulation_phase
        (tracer_out.phases.length - 1)).isSome ∧
      (create_context sim_settings op block_id tracer_out).isSome) ∧
    (tracer_out.phases.length = 0 →
      ∀ revert_data, tracer_out.revert_data = some revert_data →
      create_context sim_settings op block_id tracer_out = none) := by
  constructor
  · intro h1 h3
    have hmod : tracer_out.phases.length % 2 ^ 32 =
        tracer_out.phases.length :=
      Nat.mod_eq_of_lt (by omega)
    have hcase : tracer_out.phases.length - 1 = 0 ∨
        tracer_out.phases.length - 1 = 1 ∨
        tracer_out.phases.length - 1 = 2 := by omega
    have hlast : (entity_type_from_simulation_phase
        (tracer_out.phases.length - 1)).isSome := by
      rcases hcase with h | h | h <;>
        simp [h, entity_type_from_simulation_phase]
    obtain ⟨last_entity, hlast⟩ := Option.isSome_iff_exists.mp hlast
    refine ⟨Option.isSome_iff_exists.mpr ⟨last_entity, hlast⟩, ?_⟩
    have hne : tracer_out.phases.length ≠ 0 := by omega
    have hn3 : ¬ tracer_out.phases.length % 2 ^ 32 > 3 := by
      rw [hmod]; omega
    rcases hrev : tracer_out.revert_data with _ | rd
    · simp only [create_context, hrev]
      rw [if_neg hn3]
      simp
    · rcases rd with f | v | _ <;>
        · simp only [create_context, hrev, hne, hlast, if_false,
            RevertData.decodeFailedOp, RevertData.decodeValidationOutput]
          rw [if_neg hn3]
          first
            | (split <;> simp)
            | simp
  · intro h0 revert_data hrev
    simp only [create_context, hrev, h0, if_true,
      entity_type_from_simulation_phase]
    simp

end ContextTheorems

section ConcreteInputs

/-- An associated-slots oracle that associates nothing. -/
def noSlots : AssociatedSlotsByAddress := fun _ _ => false

/-- A phase in which nothing happened. -/
def emptyPhase : Phase :=
  { forbidden_opcodes_used := []
    forbidden_precompiles_used := []
    storage_accesses := []
    addresses_calling_with_value := []
    called_non_entry_point_with_value := false
    called_banned_entry_point_method := false
    ran_out_of_gas := false
    undeployed_contract_accesses := [] }

/-- Tracer output with the given phases and revert data and nothing else
reported. -/
def mkTracer (phases : List Phase) (revert_data : Option RevertData) :
    SimulationTracerOutput :=
  { phases := phases
    revert_data := revert_data
    accessed_contract_addresses := []
    associated_slots_by_address := noSlots
    factory_called_create2_twice := false
    expected_storage := [] }

/-- A user operation with no factory and no paymaster. -/
def op1 : UserOperation := { sender := 11, factory := none, paymaster := none }

/-- An unstaked StakeInfo. -/
def zeroStake : StakeInfo := { stake := 0, unstake_delay_sec := 0 }

/-- A benign decoded ValidationOutput: signature ok, empty paymaster
context, no aggregator. -/
def vOutBase : ValidationOutput :=
  { return_info :=
      { pre_op_gas := 7
        valid_after := 1
        valid_until := 2
        sig_failed := false
        paymaster_context := [] }
    sender_info := zeroStake
    factory_info := zeroStake
    paymaster_info := zeroStake
    aggregator_info := none }

/-- Tracer output with four clean phases and no revert. -/
def tracer4 : SimulationTracerOutput :=
  mkTracer [emptyPhase, emptyPhase, emptyPhase, emptyPhase] none

/-- Tracer output with two clean phases and a FailedOp revert. -/
def tracer2F : SimulationTracerOutput :=
  mkTracer [emptyPhase, emptyPhase]
    (some (.failedOp { op_index := 0, reason := "AA23 reverted" }))

/-- Tracer output with three clean phases and a ValidationOutput revert. -/
def tracer3 : SimulationTracerOutput :=
  mkTracer [emptyPhase, emptyPhase, emptyPhase]
    (some (.validationOutput vOutBase))

/-- Tracer output with no phases but a revert payload present. -/
def tracer0 : SimulationTracerOutput := mkTracer [] (some .other)

end ConcreteInputs

/-- Witness for C2: on four clean phases the result is exactly
WrongNumberOfPhases 4, and on two phases with a FailedOp revert the
result is exactly UnintendedRevertWithMessage for the Account with the
sender address — not WrongNumberOfPhases. -/
theorem create_context_error_precedence_witness :
    create_context Settings.default op1 0 tracer4 =
      some (.error [.wrongNumberOfPhases 4]) ∧
    create_context Settings.default op1 0 tracer2F =
      some (.error [.unintendedRevertWithMessage .account "AA23 reverted"
        (some 11)]) := by
  constructor
  · exact (create_context_error_precedence Settings.default op1 0
      tracer4).1 (by norm_num [tracer4, mkTracer])
  · exact (create_context_error_precedence Settings.default op1 0
      tracer2F).2.2.1 { op_index := 0, reason := "AA23 reverted" }
      .account (by norm_num [tracer2F, mkTracer])
      (by norm_num [tracer2F, mkTracer]) rfl rfl

/-- Witness for C9: with three phases and a revert present the last
entity is defined and create_context does not panic; with zero phases and
a revert present it panics. -/
theorem create_context_last_entity_total_witness :
    ((entity_type_from_simulation_phase
      (tracer3.phases.length - 1)).isSome ∧
      (create_context Settings.default op1 0 tracer3).isSome) ∧
    create_context Settings.default op1 0 tracer0 = none := by
  constructor
  · exact (create_context_last_entity_total Settings.default op1 0
      tracer3).1 (by norm_num [tracer3, mkTracer])
      (by norm_num [tracer3, mkTracer])
  · exact (create_context_last_entity_total Settings.default op1 0
      tracer0).2 (by norm_num [tracer0, mkTracer]) .other rfl

section GatherLemmas

/-- Insert the addresses of a phase's storage accesses into a set (the
accessed-address effect of one phase). -/
def phaseAddresses (p : Phase) (acc : Finset Address) : Finset Address :=
  p.storage_accesses.foldl (fun a sa => insert sa.address a) acc

/-- Whether some storage access of the phase classifies as NeedsStake for
the given entity. -/
def phaseNeedsStakeAccess (slots_by_address : AssociatedSlotsByAddress)
    (is_unstaked_wallet_creation : Bool) (entry_point_address : Address)
    (entity_address : Address) (sender_address : Address) (p : Phase) :
    Bool :=
  p.storage_accesses.any fun sa => sa.slots.any fun slot =>
    decide (get_storage_restriction
      { slots_by_address := slots_by_address
        is_unstaked_wallet_creation := is_unstaked_wallet_creation
        entry_point_address := entry_point_address
        entity_address := entity_address
        sender_address := sender_address
        accessed_address := sa.address
        slot := slot } = .needsStake)

theorem entity_type_some_lt {m : Nat} {e : EntityType}
    (h : entity_type_from_simulation_phase m = some e) : m < 3 := by
  rcases m with _ | _ | _ | m <;>
    simp_all [entity_type_from_simulation_phase]

theorem foldl_accessStep_accessed
    (slots_by_address : AssociatedSlotsByAddress) (iuwc : Bool)
    (ep ea sndr : Address) (l : List StorageAccess)
    (st : Bool × List StorageSlot × Finset Address) :
    (l.foldl (accessStep slots_by_address iuwc ep ea sndr) st).2.2 =
      l.foldl (fun a sa => insert sa.address a) st.2.2 := by
  induction l generalizing st with
  | nil => rfl
  | cons sa rest ih =>
    simp only [List.foldl_cons]
    rw [ih]
    rfl

theorem foldl_slotStep_fst (slots_by_address : AssociatedSlotsByAddress)
    (iuwc : Bool) (ep ea sndr addr : Address) (slots : List U256)
    (st2 : Bool × List StorageSlot) :
    (slots.foldl (slotStep slots_by_address iuwc ep ea sndr addr) st2).1 =
      (st2.1 || slots.any fun slot =>
        decide (get_storage_restriction
          { slots_by_address := slots_by_address
            is_unstaked_wallet_creation := iuwc
            entry_point_address := ep
            entity_address := ea
            sender_address := sndr
            accessed_address := addr
            slot := slot } = .needsStake)) := by
  induction slots generalizing st2 with
  | nil => simp
  | cons s rest ih =>
    simp only [List.foldl_cons, List.any_cons]
    rw [ih]
    rcases st2 with ⟨b, banned⟩
    rcases hr : get_storage_restriction
        { slots_by_address := slots_by_address
          is_unstaked_wallet_creation := iuwc
          entry_point_address := ep
          entity_address := ea
          sender_address := sndr
          accessed_address := addr
          slot := s } with _ | _ | _ <;>
      simp [slotStep, hr, Bool.or_assoc, Bool.or_comm, Bool.or_left_comm]

theorem foldl_accessStep_fst (slots_by_address : AssociatedSlotsByAddress)
    (iuwc : Bool) (ep ea sndr : Address) (l : List StorageAccess)
    (st : Bool × List StorageSlot × Finset Address) :
    (l.foldl (accessStep slots_by_address iuwc ep ea sndr) st).1 =
      (st.1 || l.any fun sa => sa.slots.any fun slot =>
        decide (get_storage_restriction
          { slots_by_address := slots_by_address
            is_unstaked_wallet_creation := iuwc
            entry_point_address := ep
            entity_address := ea
            sender_address := sndr
            accessed_address := sa.address
            slot := slot } = .needsStake)) := by
  induction l generalizing st with
  | nil => simp
  | cons sa rest ih =>
    simp only [List.foldl_cons, List.any_cons]
    rw [ih]
    show ((sa.slots.foldl (slotStep slots_by_address iuwc ep ea sndr
      sa.address) (st.1, st.2.1)).1 || _) = _
    rw [foldl_slotStep_fst]
    simp [Bool.or_assoc]

/-- The banned-slot set accumulated by the storage scan of one phase (an
IndexSet in the source, kept in insertion order). -/
def phaseBanned (slots_by_address : AssociatedSlotsByAddress)
    (iuwc : Bool) (ep ea sndr : Address) (needs0 : Bool)
    (accessed : Finset Address) (p : Phase) : List StorageSlot :=
  (p.storage_accesses.foldl (accessStep slots_by_address iuwc ep ea sndr)
    (needs0, [], accessed)).2.1

theorem phaseOut_accessed (ss : Settings) (ep : Address)
    (infos : EntityInfos) (iuwc : Bool)
    (sb : AssociatedSlotsByAddress) (pm : List Nat) (sndr : Address)
    (accessed : Finset Address) (i : Nat) (p : Phase) :
    (phaseOut ss ep infos iuwc sb pm sndr accessed (i, p)).2.2 =
      match entity_type_from_simulation_phase i with
      | none => accessed
      | some k =>
        match infos.get k with
        | none => accessed
        | some _ => phaseAddresses p accessed := by
  rcases h1 : entity_type_from_simulation_phase i with _ | k
  · simp [phaseOut, h1]
  · rcases h2 : infos.get k with _ | info
    · simp [phaseOut, h1, h2]
    · simp only [phaseOut, h1, h2]
      exact foldl_accessStep_accessed sb iuwc ep info.address sndr _ _

theorem phaseOut_ens (ss : Settings) (ep : Address)
    (infos : EntityInfos) (iuwc : Bool)
    (sb : AssociatedSlotsByAddress) (pm : List Nat) (sndr : Address)
    (accessed : Finset Address) (i : Nat) (p : Phase) :
    (phaseOut ss ep infos iuwc sb pm sndr accessed (i, p)).2.1 =
      match entity_type_from_simulation_phase i with
      | none => []
      | some k =>
        match infos.get k with
        | none => []
        | some info =>
          if (decide (k = EntityType.paymaster) && !pm.isEmpty) ||
              phaseNeedsStakeAccess sb iuwc ep info.address sndr p then
            [k]
          else [] := by
  rcases h1 : entity_type_from_simulation_phase i with _ | k
  · simp [phaseOut, h1]
  · rcases h2 : infos.get k with _ | info
    · simp [phaseOut, h1, h2]
    · simp only [phaseOut, h1, h2]
      rw [show (p.storage_accesses.foldl
          (accessStep sb iuwc ep info.address sndr)
          (decide (k = EntityType.paymaster) && !pm.isEmpty, [],
            accessed)).1 =
          ((decide (k = EntityType.paymaster) && !pm.isEmpty) ||
            phaseNeedsStakeAccess sb iuwc ep info.address sndr p) from
        foldl_accessStep_fst sb iuwc ep info.address sndr _ _]

theorem phaseOut_violations (ss : Settings) (ep : Address)
    (infos : EntityInfos) (iuwc : Bool)
    (sb : AssociatedSlotsByAddress) (pm : List Nat) (sndr : Address)
    (accessed : Finset Address) (i : Nat) (p : Phase) :
    (phaseOut ss ep infos iuwc sb pm sndr accessed (i, p)).1 =
      match entity_type_from_simulation_phase i with
      | none => []
      | some k =>
        match infos.get k with
        | none => []
        | some info =>
          let entity : Entity := { kind := k, address := info.address }
          let needs := (decide (k = EntityType.paymaster) &&
              !pm.isEmpty) ||
            phaseNeedsStakeAccess sb iuwc ep info.address sndr p
          p.forbidden_opcodes_used.map (fun co =>
              .usedForbiddenOpcode entity co.1 co.2) ++
          p.forbidden_precompiles_used.map (fun cp =>
              .usedForbiddenPrecompile entity cp.1 cp.2) ++
          (if needs && !info.is_staked then
            [.notStaked entity ss.min_stake_value ss.min_unstake_delay]
          else []) ++
          (phaseBanned sb iuwc ep info.address sndr
              (decide (k = EntityType.paymaster) && !pm.isEmpty)
              accessed p).map (fun slot =>
            .invalidStorageAccess entity slot) ++
          (if p.addresses_calling_with_value.any
                (fun address => address ≠ sndr) ||
              p.called_non_entry_point_with_value then
            [.callHadValue entity]
          else []) ++
          (if p.called_banned_entry_point_method then
            [.calledBannedEntryPointMethod entity]
          else []) ++
          (if p.ran_out_of_gas then [.outOfGas entity] else []) ++
          p.undeployed_contract_accesses.map (fun address =>
            .accessedUndeployedContract entity address) := by
  rcases h1 : entity_type_from_simulation_phase i with _ | k
  · simp [phaseOut, h1]
  · rcases h2 : infos.get k with _ | info
    · simp [phaseOut, h1, h2]
    · simp only [phaseOut, h1, h2, phaseBanned]
      rw [show (p.storage_accesses.foldl
          (accessStep sb iuwc ep info.address sndr)
          (decide (k = EntityType.paymaster) && !pm.isEmpty, [],
            accessed)).1 =
          ((decide (k = EntityType.paymaster) && !pm.isEmpty) ||
            phaseNeedsStakeAccess sb iuwc ep info.address sndr p) from
        foldl_accessStep_fst sb iuwc ep info.address sndr _ _]

end GatherLemmas

section PipelineLemmas

theorem decodeValidationOutput_eq_some {rd : RevertData}
    {v : ValidationOutput} (h : rd.decodeValidationOutput = some v) :
    rd = .validationOutput v := by
  cases rd <;> simp_all [RevertData.decodeValidationOutput]

theorem create_context_ok_spec {ss : Settings} {op : UserOperation}
    {bid : H256} {t : SimulationTracerOutput} {ctx : ValidationContext}
    (h : create_context ss op bid t = some (.ok ctx)) :
    ∃ v, t.revert_data = some (.validationOutput v) ∧
      t.phases.length = 3 ∧
      ctx = { block_id := bid
              entity_infos := EntityInfos.new op.factory op.sender
                op.paymaster v ss
              tracer_out := t
              entry_point_out := v
              is_unstaked_wallet_creation :=
                (Option.filter (fun factory => !factory.is_staked)
                  ((EntityInfos.new op.factory op.sender op.paymaster v
                    ss).get .factory)).isSome
              entities_needing_stake := []
              accessed_addresses := ∅ } := by
  by_cases hgt : t.phases.length % 2 ^ 32 > 3
  · simp only [create_context] at h
    rw [if_pos hgt] at h
    simp at h
  · simp only [create_context] at h
    rw [if_neg hgt] at h
    rcases hrev : t.revert_data with _ | rd
    · simp only [hrev] at h
      simp at h
    · simp only [hrev] at h
      by_cases h0 : t.phases.length = 0
      · rw [if_pos h0] at h
        simp at h
      · rw [if_neg h0] at h
        rcases hle : entity_type_from_simulation_phase
            (t.phases.length - 1) with _ | le
        · simp only [hle] at h
          simp at h
        · simp only [hle] at h
          rcases hfo : rd.decodeFailedOp with _ | f
          · simp only [hfo] at h
            rcases hvo : rd.decodeValidationOutput with _ | v
            · simp only [hvo] at h
              simp at h
            · simp only [hvo] at h
              by_cases hlt : t.phases.length % 2 ^ 32 < 3
              · rw [if_pos hlt] at h
                simp at h
              · rw [if_neg hlt] at h
                simp only [Option.some.injEq, Except.ok.injEq] at h
                refine ⟨v, ?_, ?_, h.symm⟩
                · rw [decodeValidationOutput_eq_some hvo]
                · have hm := entity_type_some_lt hle
                  have hmod : t.phases.length % 2 ^ 32 =
                      t.phases.length := Nat.mod_eq_of_lt (by omega)
                  rw [hmod] at hgt hlt
                  omega
          · simp only [hfo] at h
            simp at h

theorem create_context_error_singleton {ss : Settings}
    {op : UserOperation} {bid : H256} {t : SimulationTracerOutput}
    {e : List SimulationViolation}
    (h : create_context ss op bid t = some (.error e)) :
    ∃ v, e = [v] := by
  by_cases hgt : t.phases.length % 2 ^ 32 > 3
  · simp only [create_context] at h
    rw [if_pos hgt] at h
    simp only [Option.some.injEq, Except.error.injEq] at h
    exact ⟨_, h.symm⟩
  · simp only [create_context] at h
    rw [if_neg hgt] at h
    rcases hrev : t.revert_data with _ | rd
    · simp only [hrev] at h
      simp only [Option.some.injEq, Except.error.injEq] at h
      exact ⟨_, h.symm⟩
    · simp only [hrev] at h
      by_cases h0 : t.phases.length = 0
      · rw [if_pos h0] at h
        simp at h
      · rw [if_neg h0] at h
        rcases hle : entity_type_from_simulation_phase
            (t.phases.length - 1) with _ | le
        · simp only [hle] at h
          simp at h
        · simp only [hle] at h
          rcases hfo : rd.decodeFailedOp with _ | f
          · simp only [hfo] at h
            rcases hvo : rd.decodeValidationOutput with _ | v
            · simp only [hvo] at h
              simp only [Option.some.injEq, Except.error.injEq] at h
              exact ⟨_, h.symm⟩
            · simp only [hvo] at h
              by_cases hlt : t.phases.length % 2 ^ 32 < 3
              · rw [if_pos hlt] at h
                simp only [Option.some.injEq, Except.error.injEq] at h
                exact ⟨_, h.symm⟩
              · rw [if_neg hlt] at h
                simp at h
          · simp only [hfo] at h
            simp only [Option.some.injEq, Except.error.injEq] at h
            exact ⟨_, h.symm⟩

end PipelineLemmas

section PipelineLemmas2

theorem check_contracts_error_shape {expected_code_hash : Option H256}
    {code_hash : H256} {aggregator_out : AggregatorOut}
    {vs : List SimulationViolation}
    (h : check_contracts expected_code_hash code_hash aggregator_out =
      .error vs) :
    vs = [.codeHashChanged] ∨ vs = [.aggregatorValidationFailed] ∨
      vs = [.codeHashChanged, .aggregatorValidationFailed] := by
  rcases expected_code_hash with _ | e <;> rcases aggregator_out <;>
    simp only [check_contracts] at h <;>
    (split_ifs at h <;> simp_all)

theorem simulate_validation_ok_fields {ss : Settings} {ep : Address}
    {op : UserOperation} {bh : H256} {t : SimulationTracerOutput}
    {oracles : SimOracles} {ec : Option H256} {suc : SimulationSuccess}
    (h : simulate_validation ss ep op bh t oracles ec = some (.ok suc)) :
    ∃ ctx, create_context ss op bh t = some (.ok ctx) ∧
      suc.entities_needing_stake =
        (gather_context_violations ss ep ctx).2.1 ∧
      suc.accessed_addresses =
        (gather_context_violations ss ep ctx).2.2 ∧
      suc.account_is_staked =
        is_staked ctx.entry_point_out.sender_info ss := by
  unfold simulate_validation at h
  rcases hc : create_context ss op bh t with _ | ce
  · simp only [hc] at h
    simp at h
  · rcases ce with e | ctx
    · simp only [hc] at h
      simp at h
    · simp only [hc] at h
      rcases hm : oracles.match_mempools
          ((gather_context_violations ss ep ctx).1.mergeSort svLE)
          with pools | i
      · simp only [hm] at h
        rcases hcc : check_contracts ec oracles.code_hash
            (validate_aggregator_signature
              (ctx.entry_point_out.aggregator_info.map
                (fun info => info.address))
              oracles.aggregator_out) with e2 | pair
        · simp only [hcc] at h
          simp at h
        · simp only [hcc] at h
          simp only [Option.some.injEq, Except.ok.injEq] at h
          subst h
          exact ⟨ctx, rfl, rfl, rfl, rfl⟩
      · simp only [hm] at h
        rcases hg : ((gather_context_violations ss ep
            ctx).1.mergeSort svLE).get? i with _ | v
        · simp only [hg] at h
          simp at h
        · simp only [hg] at h
          simp at h

end PipelineLemmas2

/-- The oracle answers of a run in which the mempool matcher accepts, the
code hash is 0 and no aggregator validation is needed. -/
def oracle0 : SimOracles :=
  { match_mempools := fun _ => .matches [0]
    code_hash := 0
    aggregator_out := .notNeeded }

/-- C3: every violation vector returned by simulate_validation on any
error path — context creation, the no-match single element drawn from the
explicitly sorted gathered vector, and the check_contracts vector — is
sorted in the enumeration order of SimulationViolation (InvalidSignature
first, AggregatorValidationFailed last), so equal inputs produce equal
error output. -/
theorem simulate_validation_errors_sorted (ss : Settings) (ep : Address)
    (op : UserOperation) (bh : H256) (t : SimulationTracerOutput)
    (oracles : SimOracles) (ec : Option H256)
    (vs : List SimulationViolation)
    (h : simulate_validation ss ep op bh t oracles ec =
      some (.error vs)) :
    vs.Sorted (fun a b => a.tag ≤ b.tag) := by
  unfold simulate_validation at h
  rcases hc : create_context ss op bh t with _ | ce
  · simp only [hc] at h
    simp at h
  · rcases ce with e | ctx
    · simp only [hc] at h
      simp only [Option.some.injEq, Except.error.injEq] at h
      obtain ⟨v, hv⟩ := create_context_error_singleton hc
      rw [← h, hv]
      exact List.sorted_singleton v
    · simp only [hc] at h
      rcases hm : oracles.match_mempools
          ((gather_context_violations ss ep ctx).1.mergeSort svLE)
          with pools | i
      · simp only [hm] at h
        rcases hcc : check_contracts ec oracles.code_hash
            (validate_aggregator_signature
              (ctx.entry_point_out.aggregator_info.map
                (fun info => info.address))
              oracles.aggregator_out) with e2 | pair
        · simp only [hcc] at h
          simp only [Option.some.injEq, Except.error.injEq] at h
          rcases check_contracts_error_shape hcc with h1 | h1 | h1 <;>
            rw [← h, h1] <;> decide
        · simp only [hcc] at h
          simp at h
      · simp only [hm] at h
        rcases hg : ((gather_context_violations ss ep
            ctx).1.mergeSort svLE).get? i with _ | v
        · simp only [hg] at h
          simp at h
        · simp only [hg] at h
          simp only [Option.some.injEq, Except.error.injEq] at h
          rw [← h]
          exact List.sorted_singleton v

/-- Witness for C3: a concrete run that fails (FailedOp revert with two
phases), whose returned vector is sorted. -/
theorem simulate_validation_errors_sorted_witness :
    ([SimulationViolation.unintendedRevertWithMessage .account
      "AA23 reverted" (some 11)]).Sorted (fun a b => a.tag ≤ b.tag) :=
  simulate_validation_errors_sorted Settings.default 99 op1 0 tracer2F
    oracle0 none _ rfl

section Create2Twice

/-- Recognizer for the FactoryCalledCreate2Twice variant. -/
def isFCC2T : SimulationViolation → Bool
  | .factoryCalledCreate2Twice _ => true
  | _ => false

theorem phaseOut_filter_fcc2t (ss : Settings) (ep : Address)
    (infos : EntityInfos) (iuwc : Bool)
    (sb : AssociatedSlotsByAddress) (pm : List Nat) (sndr : Address)
    (accessed : Finset Address) (ip : Nat × Phase) :
    ((phaseOut ss ep infos iuwc sb pm sndr accessed ip).1).filter
      isFCC2T = [] := by
  rcases ip with ⟨i, p⟩
  rw [phaseOut_violations]
  split
  · rfl
  · split
    · rfl
    · simp [List.filter_append, List.filter_map, Function.comp, isFCC2T,
        apply_ite (List.filter isFCC2T), ite_self]

theorem foldl_phaseStep_filter_fcc2t (ss : Settings) (ep : Address)
    (infos : EntityInfos) (iuwc : Bool)
    (sb : AssociatedSlotsByAddress) (pm : List Nat) (sndr : Address)
    (l : List (Nat × Phase))
    (acc : List SimulationViolation × List EntityType × Finset Address) :
    ((l.foldl (phaseStep ss ep infos iuwc sb pm sndr) acc).1).filter
      isFCC2T = acc.1.filter isFCC2T := by
  induction l generalizing acc with
  | nil => rfl
  | cons ip rest ih =>
    simp only [List.foldl_cons]
    rw [ih]
    show (acc.1 ++ (phaseOut ss ep infos iuwc sb pm sndr acc.2.2
      ip).1).filter isFCC2T = _
    rw [List.filter_append, phaseOut_filter_fcc2t, List.append_nil]

/-- C7: if the tracer sets factory_called_create2_twice, exactly one
FactoryCalledCreate2Twice violation is produced, carrying the factory's
address when a factory is known and the entry point's address otherwise;
when the flag is false, no such violation is ever produced. -/
theorem factory_create2_twice_exact (ss : Settings) (ep : Address)
    (ctx : ValidationContext) :
    ((gather_context_violations ss ep ctx).1).filter isFCC2T =
      (if ctx.tracer_out.factory_called_create2_twice then
        [SimulationViolation.factoryCalledCreate2Twice
          (match ctx.entity_infos.get .factory with
            | some factory => factory.address
            | none => ep)]
      else []) := by
  simp only [gather_context_violations]
  rcases hagg : ctx.entry_point_out.aggregator_info with _ | ai <;>
    rcases hfcc : ctx.tracer_out.factory_called_create2_twice <;>
    simp only [hagg, hfcc, if_true, if_false, Bool.false_eq_true,
      List.filter_append, foldl_phaseStep_filter_fcc2t] <;>
    split_ifs <;>
    simp [isFCC2T]

end Create2Twice

section GatherThree

/-- The aggregator block's violation contribution. -/
def aggViolations (ss : Settings) (out : ValidationOutput) :
    List SimulationViolation :=
  match out.aggregator_info with
  | some ai =>
    if !(is_staked ai.stake_info ss) then
      [.notStaked (Entity.aggregator ai.address) ss.min_stake_value
        ss.min_unstake_delay]
    else []
  | none => []

/-- The aggregator block's entities_needing_stake contribution. -/
def aggEns (out : ValidationOutput) : List EntityType :=
  match out.aggregator_info with
  | some _ => [.aggregator]
  | none => []

/-- The factory_called_create2_twice block's contribution. -/
def fccViolations (ep : Address) (ctx : ValidationContext) :
    List SimulationViolation :=
  if ctx.tracer_out.factory_called_create2_twice then
    [.factoryCalledCreate2Twice
      (match ctx.entity_infos.get .factory with
        | some factory => factory.address
        | none => ep)]
  else []

theorem gather_three (ss : Settings) (ep : Address)
    (ctx : ValidationContext) (p0 p1 p2 : Phase)
    (hp : ctx.tracer_out.phases = [p0, p1, p2]) :
    gather_context_violations ss ep ctx =
      (let sb := ctx.tracer_out.associated_slots_by_address
       let pm := ctx.entry_point_out.return_info.paymaster_context
       let sndr := ctx.entity_infos.sender_address
       let iuwc := ctx.is_unstaked_wallet_creation
       let base : List SimulationViolation :=
         if ctx.entry_point_out.return_info.sig_failed then
           [.invalidSignature]
         else []
       let o0 := phaseOut ss ep ctx.entity_infos iuwc sb pm sndr
         ctx.accessed_addresses (0, p0)
       let o1 := phaseOut ss ep ctx.entity_infos iuwc sb pm sndr
         o0.2.2 (1, p1)
       let o2 := phaseOut ss ep ctx.entity_infos iuwc sb pm sndr
         o1.2.2 (2, p2)
       (base ++ o0.1 ++ o1.1 ++ o2.1 ++
          aggViolations ss ctx.entry_point_out ++ fccViolations ep ctx,
        ctx.entities_needing_stake ++ o0.2.1 ++ o1.2.1 ++ o2.2.1 ++
          aggEns ctx.entry_point_out,
        o2.2.2)) := by
  have henum : ([p0, p1, p2] : List Phase).enum =
      [(0, p0), (1, p1), (2, p2)] := rfl
  simp only [gather_context_violations, hp]
  rcases hagg : ctx.entry_point_out.aggregator_info with _ | ai <;>
    rcases hfcc : ctx.tracer_out.factory_called_create2_twice <;>
    simp [hagg, hfcc, henum, phaseStep, aggViolations, aggEns,
      fccViolations, List.append_assoc]

end GatherThree

/-- C10: in every SimulationSuccess, entities_needing_stake lists each
entity type at most once, in the fixed order Factory, Account, Paymaster
(the present roles that need stake, in phase order) followed by
Aggregator: it is a duplicate-free sublist of
[Factory, Account, Paymaster, Aggregator]. -/
theorem entities_needing_stake_canonical (ss : Settings) (ep : Address)
    (op : UserOperation) (bh : H256) (t : SimulationTracerOutput)
    (oracles : SimOracles) (ec : Option H256) (suc : SimulationSuccess)
    (h : simulate_validation ss ep op bh t oracles ec = some (.ok suc)) :
    suc.entities_needing_stake.Nodup ∧
    List.Sublist suc.entities_needing_stake
      [EntityType.factory, EntityType.account, EntityType.paymaster,
        EntityType.aggregator] := by
  obtain ⟨ctx, hc, hens, -, -⟩ := simulate_validation_ok_fields h
  obtain ⟨v, hrev, hlen, hctx⟩ := create_context_ok_spec hc
  subst hctx
  obtain ⟨p0, p1, p2, hp⟩ := List.length_eq_three.mp hlen
  rw [gather_three ss ep _ p0 p1 p2 hp] at hens
  simp only [phaseOut_ens] at hens
  have hsub : List.Sublist suc.entities_needing_stake
      [EntityType.factory, EntityType.account, EntityType.paymaster,
        EntityType.aggregator] := by
    rw [hens]
    simp only [entity_type_from_simulation_phase, EntityInfos.get,
      EntityInfos.new, Option.map_eq_map, aggEns]
    rcases op.factory with _ | fa <;> rcases op.paymaster with _ | pa <;>
      rcases v.aggregator_info with _ | ai <;>
      simp <;> split_ifs <;> decide
  exact ⟨List.Nodup.sublist hsub (by decide), hsub⟩

/-- Witness for C10: the happy-path run succeeds and its (empty)
entities_needing_stake is duplicate-free and a sublist of the canonical
order. -/
theorem entities_needing_stake_canonical_witness :
    ∃ suc, simulate_validation Settings.default 99 op1 0 tracer3 oracle0
        none = some (.ok suc) ∧
      (suc.entities_needing_stake.Nodup ∧
        List.Sublist suc.entities_needing_stake
          [EntityType.factory, EntityType.account, EntityType.paymaster,
            EntityType.aggregator]) :=
  ⟨_, rfl, entities_needing_stake_canonical Settings.default 99 op1 0
    tracer3 oracle0 none _ rfl⟩

/-- C8: is_staked holds iff the stake is at least min_stake_value and the
unstake delay is at least min_unstake_delay; the defaults are 84600
seconds and 10^18 wei; and in every SimulationSuccess the
account_is_staked field equals the predicate applied to the decoded
sender_info. -/
theorem stake_predicate_correct :
    (∀ (info : StakeInfo) (ss : Settings),
      is_staked info ss = true ↔
        ss.min_stake_value ≤ info.stake ∧
        ss.min_unstake_delay ≤ info.unstake_delay_sec) ∧
    Settings.default.min_unstake_delay = 84600 ∧
    Settings.default.min_stake_value = 10 ^ 18 ∧
    (∀ (ss : Settings) (ep : Address) (op : UserOperation) (bh : H256)
      (t : SimulationTracerOutput) (oracles : SimOracles)
      (ec : Option H256) (suc : SimulationSuccess)
      (v : ValidationOutput),
      t.revert_data = some (.validationOutput v) →
      simulate_validation ss ep op bh t oracles ec = some (.ok suc) →
      suc.account_is_staked = is_staked v.sender_info ss) := by
  refine ⟨?_, rfl, by norm_num [Settings.default], ?_⟩
  · intro info ss
    simp [is_staked]
  · intro ss ep op bh t oracles ec suc v hrev h
    obtain ⟨ctx, hc, -, -, hstk⟩ := simulate_validation_ok_fields h
    obtain ⟨v2, hrev2, -, hctx⟩ := create_context_ok_spec hc
    rw [hrev] at hrev2
    simp only [Option.some.injEq, RevertData.validationOutput.injEq]
      at hrev2
    subst hrev2
    rw [hstk, hctx]

/-- Witness for C8: the threshold iff at a concrete StakeInfo, and a
concrete successful run whose account_is_staked equals the predicate on
the decoded sender_info. -/
theorem stake_predicate_correct_witness :
    (is_staked { stake := 10 ^ 18, unstake_delay_sec := 84600 }
        Settings.default = true ↔
      Settings.default.min_stake_value ≤ 10 ^ 18 ∧
        Settings.default.min_unstake_delay ≤ 84600) ∧
    ∃ suc, simulate_validation Settings.default 99 op1 0 tracer3 oracle0
        none = some (.ok suc) ∧
      suc.account_is_staked =
        is_staked vOutBase.sender_info Settings.default :=
  ⟨stake_predicate_correct.1 _ _,
    _, rfl, stake_predicate_correct.2.2.2 Settings.default 99 op1 0
      tracer3 oracle0 none _ vOutBase rfl rfl⟩

section AccessedAddresses

/-- Written from the spec invariant: the union of every address appearing
in any phase's storage_accesses. -/
def unionAllAddresses (phases : List Phase) : Finset Address :=
  phases.foldl (fun acc p => phaseAddresses p acc) ∅

/-- The amended invariant: the union of storage-access addresses over the
first three phases whose corresponding entity role is present (the
violation gatherer skips a phase whose role is absent). -/
def unionPresentAddresses (infos : EntityInfos) (phases : List Phase) :
    Finset Address :=
  ((phases.take 3).enum).foldl
    (fun acc ip =>
      match entity_type_from_simulation_phase ip.1 with
      | none => acc
      | some k =>
        if (infos.get k).isSome then phaseAddresses ip.2 acc else acc)
    ∅

/-- C4 (amended): in every SimulationSuccess, accessed_addresses equals
the union of the storage-access addresses of the phases whose entity role
is present — not of all phases, since the gatherer skips a phase whose
role (Factory or Paymaster) is absent from the operation. -/
theorem accessed_addresses_union_present (ss : Settings) (ep : Address)
    (op : UserOperation) (bh : H256) (t : SimulationTracerOutput)
    (oracles : SimOracles) (ec : Option H256) (suc : SimulationSuccess)
    (v : ValidationOutput)
    (hrev : t.revert_data = some (.validationOutput v))
    (h : simulate_validation ss ep op bh t oracles ec = some (.ok suc)) :
    suc.accessed_addresses =
      unionPresentAddresses
        (EntityInfos.new op.factory op.sender op.paymaster v ss)
        t.phases := by
  obtain ⟨ctx, hc, -, hacc, -⟩ := simulate_validation_ok_fields h
  obtain ⟨v2, hrev2, hlen, hctx⟩ := create_context_ok_spec hc
  rw [hrev] at hrev2
  simp only [Option.some.injEq, RevertData.validationOutput.injEq]
    at hrev2
  subst hrev2
  subst hctx
  obtain ⟨p0, p1, p2, hp⟩ := List.length_eq_three.mp hlen
  rw [gather_three ss ep _ p0 p1 p2 hp] at hacc
  simp only [phaseOut_accessed] at hacc
  rw [hacc, hp]
  have henum : (([p0, p1, p2] : List Phase).take 3).enum =
      [(0, p0), (1, p1), (2, p2)] := rfl
  simp only [unionPresentAddresses, henum, List.foldl_cons,
    List.foldl_nil, entity_type_from_simulation_phase]
  rcases op.factory with _ | fa <;> rcases op.paymaster with _ | pa <;>
    simp [EntityInfos.get, EntityInfos.new]

/-- The paymaster-phase tracer output for the C4 counterexample: the
factory is absent, yet phase 0 reports a storage access at address 7. -/
def tracerC4 : SimulationTracerOutput :=
  mkTracer
    [{ emptyPhase with
        storage_accesses := [{ address := 7, slots := [] }] },
      emptyPhase, emptyPhase]
    (some (.validationOutput vOutBase))

/-- Counterexample for C4 as stated: with no factory, a storage access
reported in phase 0 is skipped, so accessed_addresses (empty) differs
from the union over all phases (which contains address 7). -/
theorem accessed_addresses_union_counterexample :
    ∃ suc, simulate_validation Settings.default 99 op1 0 tracerC4
        oracle0 none = some (.ok suc) ∧
      suc.accessed_addresses ≠ unionAllAddresses tracerC4.phases :=
  ⟨_, rfl, by decide⟩

end AccessedAddresses

section NeedsStake

/-- Recognizer for a NotStaked violation attributed to the given entity
type. -/
def isNotStakedOf (k : EntityType) : SimulationViolation → Bool
  | .notStaked e _ _ => decide (e.kind = k)
  | _ => false

/-- Whether the entity of the given type passes the stake predicate (true
when the role is absent; the aggregator is judged by its reported stake
info). -/
def entityStaked (ss : Settings) (infos : EntityInfos)
    (out : ValidationOutput) : EntityType → Bool
  | .aggregator =>
    match out.aggregator_info with
    | some ai => is_staked ai.stake_info ss
    | none => true
  | k =>
    match infos.get k with
    | some info => info.is_staked
    | none => true

theorem countP_map_eq_zero {α β : Type} (f : α → β) (l : List α)
    (p : β → Bool) (h : ∀ a, p (f a) = false) :
    (l.map f).countP p = 0 := by
  induction l with
  | nil => rfl
  | cons a rest ih => simp [List.countP_cons, h, ih]

theorem phaseOut_countNotStaked (k : EntityType) (ss : Settings)
    (ep : Address) (infos : EntityInfos) (iuwc : Bool)
    (sb : AssociatedSlotsByAddress) (pm : List Nat) (sndr : Address)
    (accessed : Finset Address) (i : Nat) (p : Phase) :
    ((phaseOut ss ep infos iuwc sb pm sndr accessed (i, p)).1).countP
      (isNotStakedOf k) =
      match entity_type_from_simulation_phase i with
      | none => 0
      | some kind =>
        match infos.get kind with
        | none => 0
        | some info =>
          if (decide (kind = k) &&
              ((decide (kind = EntityType.paymaster) && !pm.isEmpty) ||
                phaseNeedsStakeAccess sb iuwc ep info.address sndr p) &&
              !info.is_staked) = true then 1 else 0 := by
  rw [phaseOut_violations]
  rcases h1 : entity_type_from_simulation_phase i with _ | kind
  · rfl
  · rcases h2 : infos.get kind with _ | info
    · simp [h2]
    · simp only [h2]
      simp only [List.countP_append]
      rw [countP_map_eq_zero _ _ _ (fun a => by simp [isNotStakedOf]),
        countP_map_eq_zero _ _ _ (fun a => by simp [isNotStakedOf]),
        countP_map_eq_zero _ _ _ (fun a => by simp [isNotStakedOf]),
        countP_map_eq_zero _ _ _ (fun a => by simp [isNotStakedOf])]
      simp only [apply_ite (List.countP (isNotStakedOf k)),
        List.countP_cons, List.countP_nil, isNotStakedOf]
      rcases hnd : (decide (kind = EntityType.paymaster) &&
          !pm.isEmpty ||
          phaseNeedsStakeAccess sb iuwc ep info.address sndr p)
          with _ | _ <;>
        rcases hst : info.is_staked with _ | _ <;>
        simp [hnd, hst, ite_self]

theorem aggViolations_countNotStaked (k : EntityType) (ss : Settings)
    (out : ValidationOutput) :
    (aggViolations ss out).countP (isNotStakedOf k) =
      match out.aggregator_info with
      | none => 0
      | some ai =>
        if EntityType.aggregator = k ∧
            is_staked ai.stake_info ss = false then 1 else 0 := by
  rcases hagg : out.aggregator_info with _ | ai <;>
    simp [aggViolations, hagg, isNotStakedOf, Entity.aggregator,
      apply_ite (List.countP (isNotStakedOf k)), List.countP_cons] <;>
    split_ifs <;> simp_all [isNotStakedOf]

theorem fccViolations_countNotStaked (k : EntityType) (ep : Address)
    (ctx : ValidationContext) :
    (fccViolations ep ctx).countP (isNotStakedOf k) = 0 := by
  simp [fccViolations, apply_ite (List.countP (isNotStakedOf k)),
    List.countP_cons, isNotStakedOf, ite_self]

end NeedsStake

/-- C5 (amended): in every SimulationSuccess (phases [p0, p1, p2], revert
decoded as v), entities_needing_stake contains Paymaster iff the
paymaster role is present and (the decoded paymaster_context is non-empty
or some storage access of the paymaster phase classifies as NeedsStake);
it contains Factory iff the factory role is present and some factory-phase
access classifies as NeedsStake; Account under the same rule for the
account phase (the sender is always present); and Aggregator iff
aggregator_info is present.  Moreover, for every entity type, the
gathered violations contain exactly one NotStaked violation for it
when it is recorded as needing stake and fails the stake predicate, and
none otherwise. -/
theorem entities_needing_stake_spec (ss : Settings) (ep : Address)
    (op : UserOperation) (bh : H256) (t : SimulationTracerOutput)
    (oracles : SimOracles) (ec : Option H256) (suc : SimulationSuccess)
    (v : ValidationOutput) (p0 p1 p2 : Phase)
    (hrev : t.revert_data = some (.validationOutput v))
    (hp : t.phases = [p0, p1, p2])
    (h : simulate_validation ss ep op bh t oracles ec = some (.ok suc)) :
    (EntityType.paymaster ∈ suc.entities_needing_stake ↔
      ∃ info, (EntityInfos.new op.factory op.sender op.paymaster v
          ss).get .paymaster = some info ∧
        (v.return_info.paymaster_context ≠ [] ∨
          phaseNeedsStakeAccess t.associated_slots_by_address
            (Option.filter (fun factory => !factory.is_staked)
              ((EntityInfos.new op.factory op.sender op.paymaster v
                ss).get .factory)).isSome
            ep info.address op.sender p2 = true)) ∧
    (EntityType.factory ∈ suc.entities_needing_stake ↔
      ∃ info, (EntityInfos.new op.factory op.sender op.paymaster v
          ss).get .factory = some info ∧
        phaseNeedsStakeAccess t.associated_slots_by_address
          (Option.filter (fun factory => !factory.is_staked)
            ((EntityInfos.new op.factory op.sender op.paymaster v
              ss).get .factory)).isSome
          ep info.address op.sender p0 = true) ∧
    (EntityType.account ∈ suc.entities_needing_stake ↔
      phaseNeedsStakeAccess t.associated_slots_by_address
        (Option.filter (fun factory => !factory.is_staked)
          ((EntityInfos.new op.factory op.sender op.paymaster v
            ss).get .factory)).isSome
        ep op.sender op.sender p1 = true) ∧
    (EntityType.aggregator ∈ suc.entities_needing_stake ↔
      v.aggregator_info.isSome = true) ∧
    (∀ k, ((gather_context_violations ss ep
        { block_id := bh
          entity_infos := EntityInfos.new op.factory op.sender
            op.paymaster v ss
          tracer_out := t
          entry_point_out := v
          is_unstaked_wallet_creation :=
            (Option.filter (fun factory => !factory.is_staked)
              ((EntityInfos.new op.factory op.sender op.paymaster v
                ss).get .factory)).isSome
          entities_needing_stake := []
          accessed_addresses := ∅ }).1).countP (isNotStakedOf k) =
      if k ∈ suc.entities_needing_stake ∧
          entityStaked ss (EntityInfos.new op.factory op.sender
            op.paymaster v ss) v k = false
      then 1 else 0) := by
  obtain ⟨ctx, hc, hens, -, -⟩ := simulate_validation_ok_fields h
  obtain ⟨v2, hrev2, hlen, hctx⟩ := create_context_ok_spec hc
  rw [hrev] at hrev2
  simp only [Option.some.injEq, RevertData.validationOutput.injEq]
    at hrev2
  subst hrev2
  subst hctx
  rw [gather_three ss ep _ p0 p1 p2 hp] at hens
  simp only [phaseOut_ens, entity_type_from_simulation_phase,
    List.nil_append, EntityInfos.sender_address] at hens
  obtain ⟨sndr0, fac0, pay0⟩ := op
  obtain ⟨ri0, si0, fi0, pi0, ag0⟩ := v
  refine ⟨?_, ?_, ?_, ?_, ?_⟩
  · rw [hens]
    simp only [aggEns]
    rcases fac0 with _ | fa <;> rcases pay0 with _ | pa <;>
      rcases ag0 with _ | ai <;>
      simp [EntityInfos.get, EntityInfos.new]
  · rw [hens]
    simp only [aggEns]
    rcases fac0 with _ | fa <;> rcases pay0 with _ | pa <;>
      rcases ag0 with _ | ai <;>
      simp [EntityInfos.get, EntityInfos.new]
  · rw [hens]
    simp only [aggEns]
    rcases fac0 with _ | fa <;> rcases pay0 with _ | pa <;>
      rcases ag0 with _ | ai <;>
      simp [EntityInfos.get, EntityInfos.new]
  · rw [hens]
    simp only [aggEns]
    rcases fac0 with _ | fa <;> rcases pay0 with _ | pa <;>
      rcases ag0 with _ | ai <;>
      simp [EntityInfos.get, EntityInfos.new]
  · intro k
    rw [gather_three ss ep _ p0 p1 p2 hp]
    simp only [List.countP_append, phaseOut_countNotStaked,
      aggViolations_countNotStaked, fccViolations_countNotStaked,
      entity_type_from_simulation_phase, EntityInfos.sender_address]
    rw [hens]
    simp only [aggEns]
    rcases k <;> rcases fac0 with _ | fa <;>
      rcases pay0 with _ | pa <;> rcases ag0 with _ | ai <;>
      simp [EntityInfos.get, EntityInfos.new, isNotStakedOf,
        apply_ite (List.countP (isNotStakedOf EntityType.factory)),
        apply_ite (List.countP (isNotStakedOf EntityType.account)),
        apply_ite (List.countP (isNotStakedOf EntityType.paymaster)),
        apply_ite (List.countP (isNotStakedOf EntityType.aggregator)),
        List.countP_cons, entityStaked]

/-- A decoded ValidationOutput with a non-empty paymaster context and no
aggregator. -/
def vOutPm : ValidationOutput :=
  { vOutBase with
      return_info := { vOutBase.return_info with
        paymaster_context := [1] } }

/-- Tracer output with three clean phases and a revert decoding to a
ValidationOutput whose paymaster context is non-empty. -/
def tracerC5 : SimulationTracerOutput :=
  mkTracer [emptyPhase, emptyPhase, emptyPhase]
    (some (.validationOutput vOutPm))

/-- Counterexample for C5 as stated: with no paymaster role present but a
non-empty decoded paymaster_context, the claimed iff would put Paymaster
into entities_needing_stake, yet the run succeeds with it absent. -/
theorem entities_needing_stake_counterexample :
    ∃ suc, simulate_validation Settings.default 99 op1 0 tracerC5
        oracle0 none = some (.ok suc) ∧
      vOutPm.return_info.paymaster_context ≠ [] ∧
      EntityType.paymaster ∉ suc.entities_needing_stake :=
  ⟨_, rfl, by decide, by decide⟩

/-- Witness for C5 (amended): the paymaster membership iff at a concrete
successful run. -/
theorem entities_needing_stake_spec_witness :
    ∃ suc, simulate_validation Settings.default 99 op1 0 tracerC5
        oracle0 none = some (.ok suc) ∧
      (EntityType.paymaster ∈ suc.entities_needing_stake ↔
        ∃ info, (EntityInfos.new op1.factory op1.sender op1.paymaster
            vOutPm Settings.default).get .paymaster = some info ∧
          (vOutPm.return_info.paymaster_context ≠ [] ∨
            phaseNeedsStakeAccess tracerC5.associated_slots_by_address
              (Option.filter (fun factory => !factory.is_staked)
                ((EntityInfos.new op1.factory op1.sender op1.paymaster
                  vOutPm Settings.default).get .factory)).isSome
              99 info.address op1.sender emptyPhase = true)) :=
  ⟨_, rfl, (entities_needing_stake_spec Settings.default 99 op1 0
    tracerC5 oracle0 none _ vOutPm emptyPhase emptyPhase emptyPhase rfl
    rfl rfl).1⟩

/-- Witness for C4 (amended): the amended union equality at a concrete
successful run. -/
theorem accessed_addresses_union_present_witness :
    ∃ suc, simulate_validation Settings.default 99 op1 0 tracerC4
        oracle0 none = some (.ok suc) ∧
      suc.accessed_addresses =
        unionPresentAddresses (EntityInfos.new op1.factory op1.sender
          op1.paymaster vOutBase Settings.default) tracerC4.phases :=
  ⟨_, rfl, accessed_addresses_union_present Settings.default 99 op1 0
    tracerC4 oracle0 none _ vOutBase rfl rfl⟩
